import Mathlib

/-!
Shallow embedding of `src/main.py`, a FastAPI CRUD service for invoices.

Conventions of the embedding:
* Python numeric (`float` in the pydantic schemas, `Numeric` in the table
  columns) values are modelled as `Rat`; the validators of the source use
  exact equality, which `Rat` equality mirrors.
* `str(uuid4())` primary keys are modelled as a supply of fresh tokens: the
  database state carries `nextUuid : Nat` and a generated identifier is the
  current counter value.  The essential property of `uuid4` used by the code
  is that each generated identifier is distinct from every other one.
* A pydantic request body is modelled by a `Raw*` structure whose fields are
  all `Option`al (a JSON body may omit any field); parsing it into the
  `*Schema` structure fails when a required field is missing, and runs the
  `field_validator` hooks.  A `field_validator`'s `values` argument is the
  mapping of the previously validated sibling fields, in declaration order,
  as the source code reads it.
* The SQLAlchemy session plus SQLite file is modelled by an explicit `DB`
  value holding the three tables as lists in insertion order; each route
  handler is a function from the current `DB` (and the parsed request) to a
  response together with the next `DB`.
-/

/-- One row of the `invoice_items` table (`class InvoiceItem` of the source).
`id` is the uuid primary key; `invoice_id` the foreign key to the header.
Rows are only ever created with the `invoice` relationship set, hence
`invoice_id` is not optional here. -/
structure InvoiceItem where
  id : Nat
  item_name : String
  quantity : Rat
  price : Rat
  amount : Rat
  invoice_id : Nat
  deriving DecidableEq, Repr

/-- One row of the `invoice_billsundry` table (`class InvoiceBillSundry`). -/
structure InvoiceBillSundry where
  id : Nat
  bill_sundry_name : String
  amount : Rat
  invoice_id : Nat
  deriving DecidableEq, Repr

/-- One row of the `invoice_headers` table (`class InvoiceHeader`).
`invoice_number` is declared `Column(Integer, unique=True, autoincrement=True)`:
it is not a primary key (so SQLAlchemy's autoincrement flag has no effect on
it), it has no default, and `create_invoice` never assigns it, so the column
is nullable and stays NULL; it is modelled as `Option Int`.  `gstin` is
`nullable=True`, hence `Option String`. -/
structure InvoiceHeader where
  id : Nat
  date : String
  invoice_number : Option Int
  customer_name : String
  billing_address : String
  shipping_address : String
  gstin : Option String
  total_amount : Rat
  deriving DecidableEq, Repr

/-- The persistent state: the three tables, in insertion order, plus the
fresh-identifier supply modelling `uuid4`. -/
structure DB where
  headers : List InvoiceHeader
  items : List InvoiceItem
  billsundries : List InvoiceBillSundry
  nextUuid : Nat
  deriving DecidableEq, Repr

def emptyDB : DB := { headers := [], items := [], billsundries := [], nextUuid := 0 }

/-- `class InvoiceItemSchema(BaseModel)`: the validated item payload. -/
structure InvoiceItemSchema where
  item_name : String
  quantity : Rat
  price : Rat
  amount : Rat
  deriving DecidableEq, Repr

/-- `class InvoiceBillSundrySchema(BaseModel)`: the validated bill-sundry
payload. -/
structure InvoiceBillSundrySchema where
  bill_sundry_name : String
  amount : Rat
  deriving DecidableEq, Repr

/-- `class InvoiceHeaderSchema(BaseModel)`: the validated invoice payload,
also the `response_model` of every route.  Note that `gstin: str` is a
required `String` here (the request must supply it) even though the table
column is nullable, and that the schema has no `id` and no `invoice_number`
field. -/
structure InvoiceHeaderSchema where
  date : String
  customer_name : String
  billing_address : String
  shipping_address : String
  gstin : String
  items : List InvoiceItemSchema
  billsundries : List InvoiceBillSundrySchema
  total_amount : Rat
  deriving DecidableEq, Repr

/-- The `values` mapping seen by `InvoiceItemSchema.validate_amount`: the
sibling fields declared before `amount`, each present when it has been
validated successfully. -/
structure ItemValues where
  item_name : Option String
  quantity : Option Rat
  price : Option Rat
  deriving DecidableEq, Repr

/-- `InvoiceItemSchema.validate_amount`: the `field_validator("amount")` hook.
The source checks `amount == quantity * price` only under
`if "quantity" in values and "price" in values`, and returns `v` otherwise. -/
def validate_amount (v : Rat) (values : ItemValues) : Except String Rat :=
  match values.quantity, values.price with
  | some q, some p =>
      if v ≠ q * p then
        Except.error "Amount must be equal to Quantity * Price"
      else
        Except.ok v
  | _, _ => Except.ok v

/-- `InvoiceHeaderSchema.validate_total_amount`: the
`field_validator("total_amount")` hook.  The source reads the sibling lists
with `values.get("items", [])` and `values.get("billsundries", [])`,
defaulting to the empty list when absent. -/
def validate_total_amount (v : Rat) (values_items : Option (List InvoiceItemSchema))
    (values_billsundries : Option (List InvoiceBillSundrySchema)) : Except String Rat :=
  let item_total := ((values_items.getD []).map (fun i => i.amount)).sum
  let billsundry_total := ((values_billsundries.getD []).map (fun b => b.amount)).sum
  if v ≠ item_total + billsundry_total then
    Except.error "TotalAmount must be the sum of InvoiceItems and InvoiceBillSundrys amounts."
  else
    Except.ok v

/-- A raw JSON item object: any field may be missing. -/
structure RawItem where
  item_name : Option String
  quantity : Option Rat
  price : Option Rat
  amount : Option Rat
  deriving DecidableEq, Repr

/-- A raw JSON bill-sundry object. -/
structure RawBillSundry where
  bill_sundry_name : Option String
  amount : Option Rat
  deriving DecidableEq, Repr

/-- A raw JSON invoice body. -/
structure RawHeader where
  date : Option String
  customer_name : Option String
  billing_address : Option String
  shipping_address : Option String
  gstin : Option String
  items : Option (List RawItem)
  billsundries : Option (List RawBillSundry)
  total_amount : Option Rat
  deriving DecidableEq, Repr

/-- Pydantic validation of one item object: every field of
`InvoiceItemSchema` is required, fields are validated in declaration order,
and the `validate_amount` hook runs on `amount` with the previously
validated fields as `values`. -/
def parseItem (raw : RawItem) : Except String InvoiceItemSchema :=
  match raw.item_name, raw.quantity, raw.price, raw.amount with
  | some n, some q, some p, some a =>
      match validate_amount a { item_name := some n, quantity := some q, price := some p } with
      | Except.error e => Except.error e
      | Except.ok a2 => Except.ok { item_name := n, quantity := q, price := p, amount := a2 }
  | _, _, _, _ => Except.error "field required"

/-- Pydantic validation of the `items: List[InvoiceItemSchema]` field:
each element is validated; any failing element fails the field. -/
def parseItems : List RawItem → Except String (List InvoiceItemSchema)
  | [] => Except.ok []
  | r :: rs =>
      match parseItem r with
      | Except.error e => Except.error e
      | Except.ok s =>
          match parseItems rs with
          | Except.error e => Except.error e
          | Except.ok ss => Except.ok (s :: ss)

/-- Pydantic validation of one bill-sundry object: both fields required,
no validator hook. -/
def parseBillSundry (raw : RawBillSundry) : Except String InvoiceBillSundrySchema :=
  match raw.bill_sundry_name, raw.amount with
  | some n, some a => Except.ok { bill_sundry_name := n, amount := a }
  | _, _ => Except.error "field required"

/-- Pydantic validation of the `billsundries` list field. -/
def parseBillSundries : List RawBillSundry → Except String (List InvoiceBillSundrySchema)
  | [] => Except.ok []
  | r :: rs =>
      match parseBillSundry r with
      | Except.error e => Except.error e
      | Except.ok s =>
          match parseBillSundries rs with
          | Except.error e => Except.error e
          | Except.ok ss => Except.ok (s :: ss)

/-- Pydantic validation of the whole `InvoiceHeaderSchema` body, as FastAPI
performs it before a route handler runs.  Every declared field — including
`gstin: str` — is required; the `validate_total_amount` hook runs on
`total_amount` with the previously validated `items` and `billsundries` in
`values`. -/
def parseHeader (raw : RawHeader) : Except String InvoiceHeaderSchema :=
  match raw.date, raw.customer_name, raw.billing_address, raw.shipping_address,
        raw.gstin, raw.items, raw.billsundries, raw.total_amount with
  | some d, some cn, some ba, some sa, some g, some ri, some rb, some t =>
      match parseItems ri with
      | Except.error e => Except.error e
      | Except.ok its =>
          match parseBillSundries rb with
          | Except.error e => Except.error e
          | Except.ok bls =>
              match validate_total_amount t (some its) (some bls) with
              | Except.error e => Except.error e
              | Except.ok t2 =>
                  Except.ok { date := d, customer_name := cn, billing_address := ba,
                              shipping_address := sa, gstin := g, items := its,
                              billsundries := bls, total_amount := t2 }
  | _, _, _, _, _, _, _, _ => Except.error "field required"

/-- The error surface of the HTTP layer: a pydantic validation failure is a
422 client error, a missing invoice a 404 with detail "Invoice not found". -/
inductive ApiError where
  | validation : String → ApiError
  | notFound : String → ApiError
  deriving DecidableEq, Repr

deriving instance DecidableEq for Except

/-- The HTTP status code an `ApiError` is reported with. -/
def ApiError.status : ApiError → Nat
  | ApiError.validation _ => 422
  | ApiError.notFound _ => 404

/-- Build the `InvoiceItem` rows `create_invoice`/`update_invoice` add for a
payload's items: each row gets a freshly generated identifier (successive
values of the uuid supply starting at `startId`) and references the header. -/
def mkItemRows (startId : Nat) (hid : Nat) : List InvoiceItemSchema → List InvoiceItem
  | [] => []
  | s :: ss =>
      { id := startId, item_name := s.item_name, quantity := s.quantity,
        price := s.price, amount := s.amount, invoice_id := hid }
        :: mkItemRows (startId + 1) hid ss

/-- Build the `InvoiceBillSundry` rows added for a payload's bill-sundries. -/
def mkBillRows (startId : Nat) (hid : Nat) : List InvoiceBillSundrySchema → List InvoiceBillSundry
  | [] => []
  | s :: ss =>
      { id := startId, bill_sundry_name := s.bill_sundry_name,
        amount := s.amount, invoice_id := hid }
        :: mkBillRows (startId + 1) hid ss

/-- `create_invoice` (POST /invoices handler body, after FastAPI has already
validated the payload into `InvoiceHeaderSchema`): build the header row with
a fresh uuid (leaving `invoice_number` unassigned, i.e. NULL), flush, add one
row per item and per bill-sundry referencing the header, commit.  Returns the
stored header row (what `db.refresh(db_invoice)` yields) and the new state. -/
def create_invoice (db : DB) (invoice : InvoiceHeaderSchema) : InvoiceHeader × DB :=
  let hid := db.nextUuid
  let db_invoice : InvoiceHeader :=
    { id := hid, date := invoice.date, invoice_number := none,
      customer_name := invoice.customer_name,
      billing_address := invoice.billing_address,
      shipping_address := invoice.shipping_address,
      gstin := some invoice.gstin, total_amount := invoice.total_amount }
  let newItems := mkItemRows (hid + 1) hid invoice.items
  let newBills := mkBillRows (hid + 1 + invoice.items.length) hid invoice.billsundries
  (db_invoice,
   { headers := db.headers ++ [db_invoice],
     items := db.items ++ newItems,
     billsundries := db.billsundries ++ newBills,
     nextUuid := hid + 1 + invoice.items.length + invoice.billsundries.length })

/-- `get_invoice` lookup: `db.query(InvoiceHeader).filter(id == invoice_id).first()`. -/
def findHeader (db : DB) (invoice_id : Nat) : Option InvoiceHeader :=
  db.headers.find? (fun h => h.id == invoice_id)

/-- `get_invoice` (GET /invoices/{invoice_id} handler body): the header row,
or a 404 if none has that identifier. -/
def get_invoice (db : DB) (invoice_id : Nat) : Except ApiError InvoiceHeader :=
  match findHeader db invoice_id with
  | none => Except.error (ApiError.notFound "Invoice not found")
  | some invoice => Except.ok invoice

/-- The header-field assignments of `update_invoice`: every scalar field of
the stored row is overwritten with the payload value (identifier and
`invoice_number` are not assigned). -/
def overwriteHeader (h0 : InvoiceHeader) (invoice : InvoiceHeaderSchema) : InvoiceHeader :=
  { h0 with
    date := invoice.date, customer_name := invoice.customer_name,
    billing_address := invoice.billing_address,
    shipping_address := invoice.shipping_address,
    gstin := some invoice.gstin, total_amount := invoice.total_amount }

/-- `update_invoice` (PUT /invoices/{invoice_id} handler body): 404 when the
header does not exist; otherwise overwrite every header scalar field with the
payload's values (leaving `invoice_number` untouched), bulk-delete all item
and bill-sundry rows whose `invoice_id` matches, and add fresh rows for the
payload's lines, each with a freshly generated identifier.  Returns the
updated header row and the new state. -/
def update_invoice (db : DB) (invoice_id : Nat) (invoice : InvoiceHeaderSchema) :
    Except ApiError InvoiceHeader × DB :=
  match findHeader db invoice_id with
  | none => (Except.error (ApiError.notFound "Invoice not found"), db)
  | some db_invoice =>
      let updated : InvoiceHeader := overwriteHeader db_invoice invoice
      let newItems := mkItemRows db.nextUuid invoice_id invoice.items
      let newBills := mkBillRows (db.nextUuid + invoice.items.length) invoice_id invoice.billsundries
      (Except.ok updated,
       { headers := db.headers.map (fun h => if h.id == invoice_id then updated else h),
         items := db.items.filter (fun r => ¬ r.invoice_id = invoice_id) ++ newItems,
         billsundries :=
           db.billsundries.filter (fun r => ¬ r.invoice_id = invoice_id) ++ newBills,
         nextUuid := db.nextUuid + invoice.items.length + invoice.billsundries.length })

/-- `delete_invoice` (DELETE /invoices/{invoice_id} handler body): 404 when
the header does not exist; otherwise delete the header row (by primary key)
and, through `cascade="all, delete-orphan"`, every item and bill-sundry row
referencing it.  Returns `{"message": "Invoice deleted successfully"}`. -/
def delete_invoice (db : DB) (invoice_id : Nat) : Except ApiError String × DB :=
  match findHeader db invoice_id with
  | none => (Except.error (ApiError.notFound "Invoice not found"), db)
  | some _ =>
      (Except.ok "Invoice deleted successfully",
       { headers := db.headers.filter (fun h => ¬ h.id = invoice_id),
         items := db.items.filter (fun r => ¬ r.invoice_id = invoice_id),
         billsundries := db.billsundries.filter (fun r => ¬ r.invoice_id = invoice_id),
         nextUuid := db.nextUuid })

/-- FastAPI serialization of a stored header through
`response_model=InvoiceHeaderSchema`: the schema's fields are read off the
row and its `items`/`billsundries` relationships (the rows referencing the
header).  The schema has no `id` or `invoice_number` field, so neither is
serialized.  A NULL `gstin` cannot be produced by this API's own writes;
`getD ""` covers the unreachable case. -/
def serializeHeader (db : DB) (h : InvoiceHeader) : InvoiceHeaderSchema :=
  { date := h.date, customer_name := h.customer_name,
    billing_address := h.billing_address, shipping_address := h.shipping_address,
    gstin := h.gstin.getD "",
    items := (db.items.filter (fun r => r.invoice_id = h.id)).map
      (fun r => { item_name := r.item_name, quantity := r.quantity,
                  price := r.price, amount := r.amount }),
    billsundries := (db.billsundries.filter (fun r => r.invoice_id = h.id)).map
      (fun r => { bill_sundry_name := r.bill_sundry_name, amount := r.amount }),
    total_amount := h.total_amount }

/-- The POST /invoices route: FastAPI validates the body (422 on failure,
before the handler runs, leaving the database untouched), then runs
`create_invoice` and serializes the stored invoice as the response. -/
def route_create (db : DB) (raw : RawHeader) : Except ApiError InvoiceHeaderSchema × DB :=
  match parseHeader raw with
  | Except.error e => (Except.error (ApiError.validation e), db)
  | Except.ok invoice =>
      let (h, db2) := create_invoice db invoice
      (Except.ok (serializeHeader db2 h), db2)

/-- The GET /invoices/{invoice_id} route. -/
def route_get (db : DB) (invoice_id : Nat) : Except ApiError InvoiceHeaderSchema :=
  match get_invoice db invoice_id with
  | Except.error e => Except.error e
  | Except.ok h => Except.ok (serializeHeader db h)

/-- The GET /invoices route (`list_invoices`): every stored header,
serialized with its lines. -/
def route_list (db : DB) : List InvoiceHeaderSchema :=
  db.headers.map (serializeHeader db)

/-- The PUT /invoices/{invoice_id} route: body validation first (422 on
failure, database untouched), then `update_invoice`. -/
def route_update (db : DB) (invoice_id : Nat) (raw : RawHeader) :
    Except ApiError InvoiceHeaderSchema × DB :=
  match parseHeader raw with
  | Except.error e => (Except.error (ApiError.validation e), db)
  | Except.ok invoice =>
      match update_invoice db invoice_id invoice with
      | (Except.error e, db2) => (Except.error e, db2)
      | (Except.ok h, db2) => (Except.ok (serializeHeader db2 h), db2)

/-- The DELETE /invoices/{invoice_id} route. -/
def route_delete (db : DB) (invoice_id : Nat) : Except ApiError String × DB :=
  delete_invoice db invoice_id

/-- Well-formedness of a database state reachable through this API: every
identifier already stored (primary keys and foreign keys) was drawn from the
uuid supply, i.e. lies below the supply's counter.  `emptyDB` satisfies it
and every route preserves it; it makes freshly drawn identifiers distinct
from all stored ones. -/
def DB.wf (db : DB) : Prop :=
  (∀ h ∈ db.headers, h.id < db.nextUuid) ∧
  (∀ r ∈ db.items, r.id < db.nextUuid ∧ r.invoice_id < db.nextUuid) ∧
  (∀ r ∈ db.billsundries, r.id < db.nextUuid ∧ r.invoice_id < db.nextUuid)

instance (db : DB) : Decidable db.wf := by
  unfold DB.wf; infer_instance

/-- The create example of the specification: one Widget item (2 × 5 = 10),
one Freight bill-sundry (2), total 12, with the required gstin supplied. -/
def exampleRaw : RawHeader :=
  { date := some "2024-01-01", customer_name := some "Acme",
    billing_address := some "12 Main St", shipping_address := some "14 Dock Rd",
    gstin := some "22AAAAA0000A1Z5",
    items := some [{ item_name := some "Widget", quantity := some 2,
                     price := some 5, amount := some 10 }],
    billsundries := some [{ bill_sundry_name := some "Freight", amount := some 2 }],
    total_amount := some 12 }

/-- An item whose amount 11 differs from quantity × price = 2 × 5. -/
def badItem : RawItem :=
  { item_name := some "Widget", quantity := some 2, price := some 5, amount := some 11 }

/-- `exampleRaw` with its one item replaced by `badItem` (and the total kept
consistent with the submitted amounts, so only the item rule is violated). -/
def badItemRaw : RawHeader :=
  { exampleRaw with items := some [badItem], total_amount := some 13 }

/-- `exampleRaw` with `total_amount` 11 instead of the correct 12. -/
def badTotalRaw : RawHeader :=
  { exampleRaw with total_amount := some 11 }

/-- `exampleRaw` with the `gstin` field omitted from the body. -/
def noGstinRaw : RawHeader :=
  { exampleRaw with gstin := none }

/-- A payload for updating the example invoice: three items (the update
examples of the specification start from a 3-item invoice). -/
def threeItemsRaw : RawHeader :=
  { exampleRaw with
    items := some
      [{ item_name := some "Widget", quantity := some 2, price := some 5, amount := some 10 },
       { item_name := some "Gadget", quantity := some 1, price := some 3, amount := some 3 },
       { item_name := some "Sprocket", quantity := some 4, price := some 2, amount := some 8 }],
    total_amount := some 23 }


/-- The `InvoiceHeaderSchema` that pydantic validation yields on
`exampleRaw`. -/
def exampleSchema : InvoiceHeaderSchema :=
  { date := "2024-01-01", customer_name := "Acme",
    billing_address := "12 Main St", shipping_address := "14 Dock Rd",
    gstin := "22AAAAA0000A1Z5",
    items := [{ item_name := "Widget", quantity := 2, price := 5, amount := 10 }],
    billsundries := [{ bill_sundry_name := "Freight", amount := 2 }],
    total_amount := 12 }

/-- The database produced by creating the example invoice in an empty store. -/
def exampleDB : DB := (route_create emptyDB exampleRaw).2

/-- The header row stored for the example invoice in `exampleDB`. -/
def exampleHeader : InvoiceHeader :=
  { id := 0, date := "2024-01-01", invoice_number := none, customer_name := "Acme",
    billing_address := "12 Main St", shipping_address := "14 Dock Rd",
    gstin := some "22AAAAA0000A1Z5", total_amount := 12 }

/-- The database produced by creating the three-item invoice in an empty
store (the starting point of the wholesale-replacement example). -/
def threeItemsDB : DB := (route_create emptyDB threeItemsRaw).2

/-- The header row stored for the three-item invoice in `threeItemsDB`. -/
def threeItemsHeader : InvoiceHeader :=
  { id := 0, date := "2024-01-01", invoice_number := none, customer_name := "Acme",
    billing_address := "12 Main St", shipping_address := "14 Dock Rd",
    gstin := some "22AAAAA0000A1Z5", total_amount := 23 }

/-! ### Helper lemmas -/

theorem mkItemRows_length (ss : List InvoiceItemSchema) :
    ∀ startId hid, (mkItemRows startId hid ss).length = ss.length := by
  induction ss with
  | nil => intro s h; rfl
  | cons s ss ih => intro st h; simp [mkItemRows, ih]

theorem mkBillRows_length (ss : List InvoiceBillSundrySchema) :
    ∀ startId hid, (mkBillRows startId hid ss).length = ss.length := by
  induction ss with
  | nil => intro s h; rfl
  | cons s ss ih => intro st h; simp [mkBillRows, ih]

theorem mkItemRows_mem (ss : List InvoiceItemSchema) :
    ∀ startId hid r, r ∈ mkItemRows startId hid ss → r.invoice_id = hid ∧ startId ≤ r.id := by
  induction ss with
  | nil => intro st h r hr; cases hr
  | cons s ss ih =>
      intro st h r hr
      rcases List.mem_cons.1 hr with hr | hr
      · subst hr; exact ⟨rfl, Nat.le_refl _⟩
      · obtain ⟨h1, h2⟩ := ih (st + 1) h r hr
        exact ⟨h1, Nat.le_of_succ_le h2⟩

theorem mkBillRows_mem (ss : List InvoiceBillSundrySchema) :
    ∀ startId hid r, r ∈ mkBillRows startId hid ss → r.invoice_id = hid ∧ startId ≤ r.id := by
  induction ss with
  | nil => intro st h r hr; cases hr
  | cons s ss ih =>
      intro st h r hr
      rcases List.mem_cons.1 hr with hr | hr
      · subst hr; exact ⟨rfl, Nat.le_refl _⟩
      · obtain ⟨h1, h2⟩ := ih (st + 1) h r hr
        exact ⟨h1, Nat.le_of_succ_le h2⟩

theorem mkItemRows_map_schema (ss : List InvoiceItemSchema) :
    ∀ startId hid,
      (mkItemRows startId hid ss).map
        (fun r => ({ item_name := r.item_name, quantity := r.quantity,
                     price := r.price, amount := r.amount } : InvoiceItemSchema)) = ss := by
  induction ss with
  | nil => intro s h; rfl
  | cons s ss ih => intro st h; simp [mkItemRows, ih]

theorem mkBillRows_map_schema (ss : List InvoiceBillSundrySchema) :
    ∀ startId hid,
      (mkBillRows startId hid ss).map
        (fun r => ({ bill_sundry_name := r.bill_sundry_name,
                     amount := r.amount } : InvoiceBillSundrySchema)) = ss := by
  induction ss with
  | nil => intro s h; rfl
  | cons s ss ih => intro st h; simp [mkBillRows, ih]

theorem find?_headers_append_new (l : List InvoiceHeader) (h : InvoiceHeader)
    (hall : ∀ x ∈ l, x.id ≠ h.id) :
    (l ++ [h]).find? (fun x => x.id == h.id) = some h := by
  rw [List.find?_append]
  have hnone : l.find? (fun x => x.id == h.id) = none :=
    List.find?_eq_none.2 (fun x hx => by simpa using hall x hx)
  rw [hnone]
  simp [List.find?]

theorem find?_headers_overwrite (hid : Nat) (u : InvoiceHeader) (hu : u.id = hid) :
    ∀ (l : List InvoiceHeader) (h0 : InvoiceHeader),
      l.find? (fun h => h.id == hid) = some h0 →
      (l.map (fun h => if h.id == hid then u else h)).find? (fun h => h.id == hid) = some u := by
  intro l
  induction l with
  | nil => intro h0 hf; cases hf
  | cons x xs ih =>
      intro h0 hf
      by_cases hx : x.id = hid
      · simp [List.find?, hx, hu]
      · have hxb : (x.id == hid) = false := by simpa using hx
        rw [List.find?_cons_of_neg _ (by simp [hxb])] at hf
        simpa [List.map, hxb, List.find?_cons_of_neg, hx] using ih h0 hf

theorem parseItem_error_of_mismatch (r : RawItem) (q p a : Rat)
    (hq : r.quantity = some q) (hpr : r.price = some p) (ha : r.amount = some a)
    (hne : a ≠ q * p) : ∃ e, parseItem r = Except.error e := by
  rcases r with ⟨n, q0, p0, a0⟩
  simp only at hq hpr ha
  subst hq; subst hpr; subst ha
  cases n with
  | none => exact ⟨"field required", rfl⟩
  | some nm =>
      exact ⟨"Amount must be equal to Quantity * Price",
        by simp [parseItem, validate_amount, hne]⟩

theorem parseItems_error_of_mem (l : List RawItem) (r : RawItem) (hr : r ∈ l)
    (he : ∃ e, parseItem r = Except.error e) : ∃ e, parseItems l = Except.error e := by
  induction l with
  | nil => cases hr
  | cons x xs ih =>
      rcases List.mem_cons.1 hr with hx | hx
      · subst hx
        obtain ⟨e, he⟩ := he
        exact ⟨e, by simp [parseItems, he]⟩
      · match hpx : parseItem x with
        | Except.error e => exact ⟨e, by simp [parseItems, hpx]⟩
        | Except.ok s =>
            obtain ⟨e, he2⟩ := ih hx
            exact ⟨e, by simp [parseItems, hpx, he2]⟩

theorem parseHeader_error_of_items (raw : RawHeader) (l : List RawItem)
    (hl : raw.items = some l) (he : ∃ e, parseItems l = Except.error e) :
    ∃ e, parseHeader raw = Except.error e := by
  obtain ⟨e, he⟩ := he
  rcases raw with ⟨d, cn, ba, sa, g, its, rb, t⟩
  simp only at hl
  subst hl
  cases d <;> cases cn <;> cases ba <;> cases sa <;> cases g <;> cases rb <;> cases t <;>
    first
      | exact ⟨"field required", rfl⟩
      | exact ⟨e, by simp [parseHeader, he]⟩

theorem serializeHeader_create (db : DB) (s : InvoiceHeaderSchema) (hwf : DB.wf db) :
    serializeHeader (create_invoice db s).2 (create_invoice db s).1 = s := by
  obtain ⟨-, hwI, hwB⟩ := hwf
  have hI : ((create_invoice db s).2.items.filter
      (fun r => r.invoice_id = (create_invoice db s).1.id)) =
      mkItemRows (db.nextUuid + 1) db.nextUuid s.items := by
    show ((db.items ++ mkItemRows (db.nextUuid + 1) db.nextUuid s.items).filter
      (fun r => r.invoice_id = db.nextUuid)) = _
    rw [List.filter_append]
    have h1 : db.items.filter (fun r => r.invoice_id = db.nextUuid) = [] := by
      rw [List.filter_eq_nil_iff]
      intro r hr
      have h2 := (hwI r hr).2
      simp only [decide_eq_true_eq]
      omega
    have h2 : (mkItemRows (db.nextUuid + 1) db.nextUuid s.items).filter
        (fun r => r.invoice_id = db.nextUuid) = mkItemRows (db.nextUuid + 1) db.nextUuid s.items := by
      rw [List.filter_eq_self]
      intro r hr
      have h3 := (mkItemRows_mem s.items (db.nextUuid + 1) db.nextUuid r hr).1
      simp [h3]
    rw [h1, h2, List.nil_append]
  have hB : ((create_invoice db s).2.billsundries.filter
      (fun r => r.invoice_id = (create_invoice db s).1.id)) =
      mkBillRows (db.nextUuid + 1 + s.items.length) db.nextUuid s.billsundries := by
    show ((db.billsundries ++ mkBillRows (db.nextUuid + 1 + s.items.length) db.nextUuid s.billsundries).filter
      (fun r => r.invoice_id = db.nextUuid)) = _
    rw [List.filter_append]
    have h1 : db.billsundries.filter (fun r => r.invoice_id = db.nextUuid) = [] := by
      rw [List.filter_eq_nil_iff]
      intro r hr
      have h2 := (hwB r hr).2
      simp only [decide_eq_true_eq]
      omega
    have h2 : (mkBillRows (db.nextUuid + 1 + s.items.length) db.nextUuid s.billsundries).filter
        (fun r => r.invoice_id = db.nextUuid) =
        mkBillRows (db.nextUuid + 1 + s.items.length) db.nextUuid s.billsundries := by
      rw [List.filter_eq_self]
      intro r hr
      have h3 := (mkBillRows_mem s.billsundries (db.nextUuid + 1 + s.items.length) db.nextUuid r hr).1
      simp [h3]
    rw [h1, h2, List.nil_append]
  simp [serializeHeader, hI, hB, mkItemRows_map_schema, mkBillRows_map_schema]
  rfl

/-! ### Claim theorems -/

/-- C1: for every invoice payload submitted to create or update, if some item
in the payload carries quantity, price and amount with amount ≠ quantity ×
price, the operation fails with a validation error reported as a client input
error (status 422) and the database is left exactly as it was: no header,
item or bill-sundry row from the request is persisted. -/
theorem item_amount_mismatch_rejected (db : DB) (raw : RawHeader)
    (l : List RawItem) (r : RawItem) (q p a : Rat)
    (hl : raw.items = some l) (hr : r ∈ l)
    (hq : r.quantity = some q) (hpr : r.price = some p) (ha : r.amount = some a)
    (hne : a ≠ q * p) :
    (∃ e, route_create db raw = (Except.error (ApiError.validation e), db) ∧
      (ApiError.validation e).status = 422) ∧
    (∀ invoice_id, ∃ e,
      route_update db invoice_id raw = (Except.error (ApiError.validation e), db)) := by
  obtain ⟨e, he⟩ := parseHeader_error_of_items raw l hl
    (parseItems_error_of_mem l r hr (parseItem_error_of_mismatch r q p a hq hpr ha hne))
  exact ⟨⟨e, by simp [route_create, he], rfl⟩,
         fun invoice_id => ⟨e, by simp [route_update, he]⟩⟩

/-- Witness for C1: the example invoice with its item's amount changed to 11
(quantity 2, price 5) is rejected by create with a 422 validation error, the
store staying empty. -/
theorem item_amount_mismatch_rejected_witness :
    badItem.amount = some 11 ∧ (11 : Rat) ≠ 2 * 5 ∧
    (∃ e, route_create emptyDB badItemRaw = (Except.error (ApiError.validation e), emptyDB) ∧
      (ApiError.validation e).status = 422) :=
  ⟨rfl, by with_unfolding_all decide,
   (item_amount_mismatch_rejected emptyDB badItemRaw [badItem] badItem 2 5 11 rfl
      (List.mem_singleton_self _) rfl rfl rfl (by with_unfolding_all decide)).1⟩

/-- C2: a payload whose items and bill-sundries all validate but whose
total_amount differs (exact equality, no tolerance) from the sum of item
amounts plus bill-sundry amounts is rejected by create and update with the
total-mismatch validation error, and the database is left unchanged. -/
theorem total_amount_mismatch_rejected (db : DB) (raw : RawHeader)
    (d cn ba sa g : String) (ri : List RawItem) (rb : List RawBillSundry) (t : Rat)
    (its : List InvoiceItemSchema) (bls : List InvoiceBillSundrySchema)
    (hd : raw.date = some d) (hcn : raw.customer_name = some cn)
    (hba : raw.billing_address = some ba) (hsa : raw.shipping_address = some sa)
    (hg : raw.gstin = some g) (hri : raw.items = some ri)
    (hrb : raw.billsundries = some rb) (ht : raw.total_amount = some t)
    (hits : parseItems ri = Except.ok its) (hbls : parseBillSundries rb = Except.ok bls)
    (hne : t ≠ (its.map (fun i => i.amount)).sum + (bls.map (fun b => b.amount)).sum) :
    route_create db raw = (Except.error (ApiError.validation
        "TotalAmount must be the sum of InvoiceItems and InvoiceBillSundrys amounts."), db) ∧
    (∀ invoice_id, route_update db invoice_id raw =
      (Except.error (ApiError.validation
        "TotalAmount must be the sum of InvoiceItems and InvoiceBillSundrys amounts."), db)) := by
  have hperr : parseHeader raw = Except.error
      "TotalAmount must be the sum of InvoiceItems and InvoiceBillSundrys amounts." := by
    rcases raw with ⟨d0, cn0, ba0, sa0, g0, ri0, rb0, t0⟩
    simp only at hd hcn hba hsa hg hri hrb ht
    subst hd; subst hcn; subst hba; subst hsa; subst hg; subst hri; subst hrb; subst ht
    simp [parseHeader, hits, hbls, validate_total_amount, hne]
  exact ⟨by simp [route_create, hperr],
         fun invoice_id => by simp [route_update, hperr]⟩

/-- Witness for C2: the example invoice with total_amount 11 instead of
10 + 2 = 12 is rejected by create with the total-mismatch error, the store
staying empty. -/
theorem total_amount_mismatch_rejected_witness :
    badTotalRaw.total_amount = some 11 ∧
    (11 : Rat) ≠ (exampleSchema.items.map (fun i => i.amount)).sum +
      (exampleSchema.billsundries.map (fun b => b.amount)).sum ∧
    route_create emptyDB badTotalRaw = (Except.error (ApiError.validation
      "TotalAmount must be the sum of InvoiceItems and InvoiceBillSundrys amounts."), emptyDB) :=
  ⟨rfl, by with_unfolding_all decide,
   (total_amount_mismatch_rejected emptyDB badTotalRaw
      "2024-01-01" "Acme" "12 Main St" "14 Dock Rd" "22AAAAA0000A1Z5"
      (exampleRaw.items.getD []) (exampleRaw.billsundries.getD []) 11
      exampleSchema.items exampleSchema.billsundries
      rfl rfl rfl rfl rfl rfl rfl rfl
      (by with_unfolding_all decide) (by with_unfolding_all decide)
      (by with_unfolding_all decide)).1⟩

/-- C10: the item-level equality check of `validate_amount` runs only when
both `quantity` and `price` are present among the previously validated
sibling values; when either is absent, every submitted amount passes the
item-level check unexamined. -/
theorem validate_amount_skipped_when_sibling_missing (v : Rat) (values : ItemValues)
    (h : values.quantity = none ∨ values.price = none) :
    validate_amount v values = Except.ok v := by
  rcases values with ⟨n, q, p⟩
  simp only at h
  rcases h with h | h
  · subst h; cases p <;> rfl
  · subst h; cases q <;> rfl

/-- Witness for C10: with `quantity` absent from the validated siblings, the
plainly wrong amount 99 passes the item-level check. -/
theorem validate_amount_skipped_when_sibling_missing_witness :
    (({ item_name := some "Widget", quantity := none, price := some 5 } : ItemValues).quantity
      = none ∨
     ({ item_name := some "Widget", quantity := none, price := some 5 } : ItemValues).price
      = none) ∧
    validate_amount 99 { item_name := some "Widget", quantity := none, price := some 5 }
      = Except.ok 99 :=
  ⟨Or.inl rfl,
   validate_amount_skipped_when_sibling_missing 99
     { item_name := some "Widget", quantity := none, price := some 5 } (Or.inl rfl)⟩

/-- C4 (code bug): `invoice_number` is declared with `autoincrement=True`
but is not a primary key, so SQLAlchemy never generates a value for it, and
`create_invoice` never assigns it either: the header row returned and
persisted by every successful create carries a NULL invoice sequence number,
contradicting the claim that each create assigns a non-null, unique,
strictly increasing number. -/
theorem create_leaves_invoice_number_null (db : DB) (s : InvoiceHeaderSchema) :
    (create_invoice db s).1.invoice_number = none ∧
    (create_invoice db s).1 ∈ (create_invoice db s).2.headers :=
  ⟨rfl, by simp [create_invoice]⟩

/-- C3 counterexample: creating the example invoice twice persists two
headers with distinct generated identifiers (0 and 3), yet the two create
responses are identical, and the persisted sequence number is NULL — so the
response of create contains neither the generated header identifier nor a
system-assigned sequence number, contrary to the claim. -/
theorem create_response_omits_generated_identifier :
    (route_create emptyDB exampleRaw).1 = (route_create exampleDB exampleRaw).1 ∧
    exampleDB.headers.map (fun h => h.id) = [0] ∧
    (route_create exampleDB exampleRaw).2.headers.map (fun h => h.id) = [0, 3] ∧
    exampleDB.headers.map (fun h => h.invoice_number) = [none] := by
  with_unfolding_all decide

/-- C3 (amended): for every valid payload, a successful create returns the
serialization of the stored invoice through the response schema — the
payload-shaped fields (date, customer_name, billing_address,
shipping_address, gstin, items, billsundries, total_amount), reflecting
exactly what was persisted; the response schema does not include the
generated identifier or the invoice sequence number. -/
theorem create_returns_persisted_payload_view (db : DB) (raw : RawHeader)
    (s : InvoiceHeaderSchema) (hwf : DB.wf db) (hp : parseHeader raw = Except.ok s) :
    route_create db raw =
      (Except.ok (serializeHeader (create_invoice db s).2 (create_invoice db s).1),
       (create_invoice db s).2) ∧
    serializeHeader (create_invoice db s).2 (create_invoice db s).1 = s :=
  ⟨by simp [route_create, hp], serializeHeader_create db s hwf⟩

/-- Witness for the amended C3: creating the example invoice in the empty
store succeeds and answers with the serialization of the persisted rows. -/
theorem create_returns_persisted_payload_view_witness :
    DB.wf emptyDB ∧ parseHeader exampleRaw = Except.ok exampleSchema ∧
    serializeHeader (create_invoice emptyDB exampleSchema).2
      (create_invoice emptyDB exampleSchema).1 = exampleSchema :=
  ⟨by decide, by with_unfolding_all decide,
   (create_returns_persisted_payload_view emptyDB exampleRaw exampleSchema (by decide)
      (by with_unfolding_all decide)).2⟩

/-- C6: creating an invoice from a valid payload and then fetching it by the
created header's identifier yields a structurally equal invoice: the
response of get is exactly the validated payload (header scalar fields and
both line lists; identifiers and the sequence number are not part of the
response schema). -/
theorem create_then_get_roundtrip (db : DB) (raw : RawHeader) (s : InvoiceHeaderSchema)
    (hwf : DB.wf db) (hp : parseHeader raw = Except.ok s) :
    route_get (route_create db raw).2 (create_invoice db s).1.id = Except.ok s := by
  have hdb2 : (route_create db raw).2 = (create_invoice db s).2 := by
    simp [route_create, hp]
  rw [hdb2]
  have hfind : findHeader (create_invoice db s).2 (create_invoice db s).1.id =
      some (create_invoice db s).1 := by
    show ((db.headers ++ [(create_invoice db s).1]).find?
      (fun h => h.id == (create_invoice db s).1.id)) = _
    refine find?_headers_append_new db.headers _ (fun x hx => ?_)
    have hlt := hwf.1 x hx
    show x.id ≠ db.nextUuid
    omega
  simp [route_get, get_invoice, hfind, serializeHeader_create db s hwf]

/-- Witness for C6: the example payload round-trips through create and get. -/
theorem create_then_get_roundtrip_witness :
    DB.wf emptyDB ∧ parseHeader exampleRaw = Except.ok exampleSchema ∧
    route_get (route_create emptyDB exampleRaw).2 (create_invoice emptyDB exampleSchema).1.id
      = Except.ok exampleSchema :=
  ⟨by decide, by with_unfolding_all decide,
   create_then_get_roundtrip emptyDB exampleRaw exampleSchema (by decide)
     (by with_unfolding_all decide)⟩

/-- C8: for an identifier with no stored header, get fails with 404
"Invoice not found", update (with a payload that passes body validation,
which FastAPI performs before the handler can look at the identifier) fails
with the same 404 leaving the store unchanged, and delete fails with the
same 404 leaving the store unchanged. -/
theorem missing_invoice_not_found (db : DB) (invoice_id : Nat)
    (hnone : findHeader db invoice_id = none) :
    route_get db invoice_id = Except.error (ApiError.notFound "Invoice not found") ∧
    (ApiError.notFound "Invoice not found").status = 404 ∧
    (∀ raw s, parseHeader raw = Except.ok s →
      route_update db invoice_id raw =
        (Except.error (ApiError.notFound "Invoice not found"), db)) ∧
    route_delete db invoice_id = (Except.error (ApiError.notFound "Invoice not found"), db) := by
  refine ⟨?_, rfl, ?_, ?_⟩
  · simp [route_get, get_invoice, hnone]
  · intro raw s hp
    simp [route_update, hp, update_invoice, hnone]
  · simp [route_delete, delete_invoice, hnone]

/-- Witness for C8: identifier 5 was never created in the empty store; get,
update with the (valid) example payload, and delete all answer 404. -/
theorem missing_invoice_not_found_witness :
    findHeader emptyDB 5 = none ∧
    route_get emptyDB 5 = Except.error (ApiError.notFound "Invoice not found") ∧
    route_update emptyDB 5 exampleRaw =
      (Except.error (ApiError.notFound "Invoice not found"), emptyDB) ∧
    route_delete emptyDB 5 = (Except.error (ApiError.notFound "Invoice not found"), emptyDB) :=
  ⟨rfl,
   (missing_invoice_not_found emptyDB 5 rfl).1,
   (missing_invoice_not_found emptyDB 5 rfl).2.2.1 exampleRaw exampleSchema
     (by with_unfolding_all decide),
   (missing_invoice_not_found emptyDB 5 rfl).2.2.2⟩

/-- C9 counterexample: a payload that omits gstin but is otherwise the valid
example payload is not accepted — create rejects it with a validation error
and persists nothing, because the request schema declares `gstin: str` as a
required field even though the table column is nullable. -/
theorem gstin_omitted_rejected :
    noGstinRaw.gstin = none ∧
    route_create emptyDB noGstinRaw =
      (Except.error (ApiError.validation "field required"), emptyDB) := by
  with_unfolding_all decide

/-- C9 (amended): the stored gstin column is nullable, but the request
schema requires the gstin field; a create or update payload omitting gstin,
with all other fields present, is rejected with a validation error and no
row from the request is persisted. -/
theorem gstin_required_by_schema (db : DB) (raw : RawHeader)
    (d cn ba sa : String) (ri : List RawItem) (rb : List RawBillSundry) (t : Rat)
    (hd : raw.date = some d) (hcn : raw.customer_name = some cn)
    (hba : raw.billing_address = some ba) (hsa : raw.shipping_address = some sa)
    (hg : raw.gstin = none) (hri : raw.items = some ri)
    (hrb : raw.billsundries = some rb) (ht : raw.total_amount = some t) :
    route_create db raw = (Except.error (ApiError.validation "field required"), db) ∧
    ∀ invoice_id, route_update db invoice_id raw =
      (Except.error (ApiError.validation "field required"), db) := by
  have hperr : parseHeader raw = Except.error "field required" := by
    rcases raw with ⟨d0, cn0, ba0, sa0, g0, ri0, rb0, t0⟩
    simp only at hd hcn hba hsa hg hri hrb ht
    subst hd; subst hcn; subst hba; subst hsa; subst hg; subst hri; subst hrb; subst ht
    rfl
  exact ⟨by simp [route_create, hperr],
         fun invoice_id => by simp [route_update, hperr]⟩

/-- Witness for the amended C9: the example payload with gstin omitted is
rejected by create, the store staying empty. -/
theorem gstin_required_by_schema_witness :
    noGstinRaw.gstin = none ∧
    route_create emptyDB noGstinRaw =
      (Except.error (ApiError.validation "field required"), emptyDB) ∧
    route_update emptyDB 0 noGstinRaw =
      (Except.error (ApiError.validation "field required"), emptyDB) :=
  ⟨rfl,
   (gstin_required_by_schema emptyDB noGstinRaw "2024-01-01" "Acme" "12 Main St" "14 Dock Rd"
      (exampleRaw.items.getD []) (exampleRaw.billsundries.getD []) 12
      rfl rfl rfl rfl rfl rfl rfl rfl).1,
   (gstin_required_by_schema emptyDB noGstinRaw "2024-01-01" "Acme" "12 Main St" "14 Dock Rd"
      (exampleRaw.items.getD []) (exampleRaw.billsundries.getD []) 12
      rfl rfl rfl rfl rfl rfl rfl rfl).2 0⟩

/-- C7: delete is not idempotent: when a header with the identifier exists,
the first delete succeeds with the confirmation message and removes the
header together with every item and bill-sundry row referencing it, and a
second delete of the same identifier fails with NotFound, changing nothing
further. -/
theorem delete_not_idempotent (db : DB) (invoice_id : Nat) (h0 : InvoiceHeader)
    (hf : findHeader db invoice_id = some h0) :
    ∃ db2, route_delete db invoice_id = (Except.ok "Invoice deleted successfully", db2) ∧
      findHeader db2 invoice_id = none ∧
      (∀ h ∈ db2.headers, h.id ≠ invoice_id) ∧
      (∀ r ∈ db2.items, r.invoice_id ≠ invoice_id) ∧
      (∀ r ∈ db2.billsundries, r.invoice_id ≠ invoice_id) ∧
      route_delete db2 invoice_id =
        (Except.error (ApiError.notFound "Invoice not found"), db2) := by
  refine ⟨{ headers := db.headers.filter (fun h => ¬ h.id = invoice_id),
            items := db.items.filter (fun r => ¬ r.invoice_id = invoice_id),
            billsundries := db.billsundries.filter (fun r => ¬ r.invoice_id = invoice_id),
            nextUuid := db.nextUuid }, ?_, ?_, ?_, ?_, ?_, ?_⟩
  · simp [route_delete, delete_invoice, hf]
  · refine List.find?_eq_none.2 (fun x hx => ?_)
    rw [List.mem_filter] at hx
    simpa using hx.2
  · intro h hh
    rw [List.mem_filter] at hh
    simpa using hh.2
  · intro r hr
    rw [List.mem_filter] at hr
    simpa using hr.2
  · intro r hr
    rw [List.mem_filter] at hr
    simpa using hr.2
  · have hnone2 : findHeader
        { headers := db.headers.filter (fun h => ¬ h.id = invoice_id),
          items := db.items.filter (fun r => ¬ r.invoice_id = invoice_id),
          billsundries := db.billsundries.filter (fun r => ¬ r.invoice_id = invoice_id),
          nextUuid := db.nextUuid } invoice_id = none := by
      refine List.find?_eq_none.2 (fun x hx => ?_)
      rw [List.mem_filter] at hx
      simpa using hx.2
    simp only [route_delete, delete_invoice]
    rw [hnone2]

/-- Witness for C7: deleting the example invoice succeeds and empties its
rows; deleting it again answers 404. -/
theorem delete_not_idempotent_witness :
    findHeader exampleDB 0 = some exampleHeader ∧
    (∃ db2, route_delete exampleDB 0 = (Except.ok "Invoice deleted successfully", db2) ∧
      findHeader db2 0 = none ∧
      (∀ h ∈ db2.headers, h.id ≠ 0) ∧
      (∀ r ∈ db2.items, r.invoice_id ≠ 0) ∧
      (∀ r ∈ db2.billsundries, r.invoice_id ≠ 0) ∧
      route_delete db2 0 = (Except.error (ApiError.notFound "Invoice not found"), db2)) :=
  ⟨by with_unfolding_all decide,
   delete_not_idempotent exampleDB 0 exampleHeader (by with_unfolding_all decide)⟩

/-- C5: updating an existing invoice with a valid payload overwrites all
header scalar fields, deletes every previously stored item and bill-sundry
row of that header, and inserts exactly the payload's lines with freshly
generated identifiers (no previously stored line row survives); in
particular the number of item rows for the header afterwards equals the
payload's item count, so a 3-item invoice updated with a 1-item payload is
left with exactly 1 item. -/
theorem update_replaces_lines_wholesale (db : DB) (invoice_id : Nat) (raw : RawHeader)
    (s : InvoiceHeaderSchema) (h0 : InvoiceHeader)
    (hwf : DB.wf db) (hp : parseHeader raw = Except.ok s)
    (hf : findHeader db invoice_id = some h0) :
    ∃ db2, route_update db invoice_id raw = (Except.ok s, db2) ∧
      db2.items = db.items.filter (fun r => ¬ r.invoice_id = invoice_id)
        ++ mkItemRows db.nextUuid invoice_id s.items ∧
      db2.billsundries = db.billsundries.filter (fun r => ¬ r.invoice_id = invoice_id)
        ++ mkBillRows (db.nextUuid + s.items.length) invoice_id s.billsundries ∧
      (db2.items.filter (fun r => r.invoice_id = invoice_id)).length = s.items.length ∧
      (∀ r ∈ db.items, r.invoice_id = invoice_id → r ∉ db2.items) ∧
      (∀ r ∈ db.billsundries, r.invoice_id = invoice_id → r ∉ db2.billsundries) ∧
      findHeader db2 invoice_id = some (overwriteHeader h0 s) := by
  obtain ⟨hwH, hwI, hwB⟩ := hwf
  have hid0 : h0.id = invoice_id := by simpa using List.find?_some hf
  have hI : (db.items.filter (fun r => ¬ r.invoice_id = invoice_id)
        ++ mkItemRows db.nextUuid invoice_id s.items).filter
        (fun r => r.invoice_id = invoice_id) = mkItemRows db.nextUuid invoice_id s.items := by
    rw [List.filter_append]
    have h1 : (db.items.filter (fun r => ¬ r.invoice_id = invoice_id)).filter
        (fun r => r.invoice_id = invoice_id) = [] := by
      rw [List.filter_eq_nil_iff]
      intro r hr
      rw [List.mem_filter] at hr
      have h2 : ¬ r.invoice_id = invoice_id := by simpa using hr.2
      simpa using h2
    have h2 : (mkItemRows db.nextUuid invoice_id s.items).filter
        (fun r => r.invoice_id = invoice_id) = mkItemRows db.nextUuid invoice_id s.items := by
      rw [List.filter_eq_self]
      intro r hr
      have h3 := (mkItemRows_mem s.items db.nextUuid invoice_id r hr).1
      simp [h3]
    rw [h1, h2, List.nil_append]
  have hB : (db.billsundries.filter (fun r => ¬ r.invoice_id = invoice_id)
        ++ mkBillRows (db.nextUuid + s.items.length) invoice_id s.billsundries).filter
        (fun r => r.invoice_id = invoice_id)
        = mkBillRows (db.nextUuid + s.items.length) invoice_id s.billsundries := by
    rw [List.filter_append]
    have h1 : (db.billsundries.filter (fun r => ¬ r.invoice_id = invoice_id)).filter
        (fun r => r.invoice_id = invoice_id) = [] := by
      rw [List.filter_eq_nil_iff]
      intro r hr
      rw [List.mem_filter] at hr
      have h2 : ¬ r.invoice_id = invoice_id := by simpa using hr.2
      simpa using h2
    have h2 : (mkBillRows (db.nextUuid + s.items.length) invoice_id s.billsundries).filter
        (fun r => r.invoice_id = invoice_id)
        = mkBillRows (db.nextUuid + s.items.length) invoice_id s.billsundries := by
      rw [List.filter_eq_self]
      intro r hr
      have h3 := (mkBillRows_mem s.billsundries (db.nextUuid + s.items.length) invoice_id r hr).1
      simp [h3]
    rw [h1, h2, List.nil_append]
  have hser : serializeHeader
      { headers := db.headers.map (fun h => if h.id == invoice_id then overwriteHeader h0 s else h),
        items := db.items.filter (fun r => ¬ r.invoice_id = invoice_id)
          ++ mkItemRows db.nextUuid invoice_id s.items,
        billsundries := db.billsundries.filter (fun r => ¬ r.invoice_id = invoice_id)
          ++ mkBillRows (db.nextUuid + s.items.length) invoice_id s.billsundries,
        nextUuid := db.nextUuid + s.items.length + s.billsundries.length }
      (overwriteHeader h0 s) = s := by
    have hoid : (overwriteHeader h0 s).id = invoice_id := hid0
    unfold serializeHeader
    rw [hoid]
    simp only [hI, hB, mkItemRows_map_schema, mkBillRows_map_schema]
    rfl
  refine ⟨{ headers := db.headers.map (fun h => if h.id == invoice_id then overwriteHeader h0 s else h),
            items := db.items.filter (fun r => ¬ r.invoice_id = invoice_id)
              ++ mkItemRows db.nextUuid invoice_id s.items,
            billsundries := db.billsundries.filter (fun r => ¬ r.invoice_id = invoice_id)
              ++ mkBillRows (db.nextUuid + s.items.length) invoice_id s.billsundries,
            nextUuid := db.nextUuid + s.items.length + s.billsundries.length },
         ?_, rfl, rfl, ?_, ?_, ?_, ?_⟩
  · simp only [route_update, hp, update_invoice, hf, overwriteHeader]
    rw [show (Except.ok s : Except ApiError InvoiceHeaderSchema) =
      Except.ok (serializeHeader
        { headers := db.headers.map (fun h => if h.id == invoice_id then overwriteHeader h0 s else h),
          items := db.items.filter (fun r => ¬ r.invoice_id = invoice_id)
            ++ mkItemRows db.nextUuid invoice_id s.items,
          billsundries := db.billsundries.filter (fun r => ¬ r.invoice_id = invoice_id)
            ++ mkBillRows (db.nextUuid + s.items.length) invoice_id s.billsundries,
          nextUuid := db.nextUuid + s.items.length + s.billsundries.length }
        (overwriteHeader h0 s)) from by rw [hser]]
    rfl
  · rw [hI, mkItemRows_length]
  · intro r hr hrid hmem
    rcases List.mem_append.1 hmem with hmem | hmem
    · rw [List.mem_filter] at hmem
      have h5 : ¬ r.invoice_id = invoice_id := by simpa using hmem.2
      exact h5 hrid
    · have h3 := (mkItemRows_mem s.items db.nextUuid invoice_id r hmem).2
      have h4 := (hwI r hr).1
      omega
  · intro r hr hrid hmem
    rcases List.mem_append.1 hmem with hmem | hmem
    · rw [List.mem_filter] at hmem
      have h5 : ¬ r.invoice_id = invoice_id := by simpa using hmem.2
      exact h5 hrid
    · have h3 := (mkBillRows_mem s.billsundries (db.nextUuid + s.items.length) invoice_id r hmem).2
      have h4 := (hwB r hr).1
      omega
  · exact find?_headers_overwrite invoice_id (overwriteHeader h0 s) hid0 db.headers h0 hf

/-- Witness for C5: the stored three-item invoice, updated with the one-item
example payload, answers with the payload and is left with exactly one item
row. -/
theorem update_replaces_lines_wholesale_witness :
    DB.wf threeItemsDB ∧ parseHeader exampleRaw = Except.ok exampleSchema ∧
    findHeader threeItemsDB 0 = some threeItemsHeader ∧
    threeItemsDB.items.length = 3 ∧ exampleSchema.items.length = 1 ∧
    (∃ db2, route_update threeItemsDB 0 exampleRaw = (Except.ok exampleSchema, db2) ∧
      (db2.items.filter (fun r => r.invoice_id = 0)).length = exampleSchema.items.length) :=
  ⟨by with_unfolding_all decide, by with_unfolding_all decide, by with_unfolding_all decide,
   by with_unfolding_all decide, rfl, by
    obtain ⟨db2, hresp, hitems, hbills, hcount, hold, holdb, hfind⟩ :=
      update_replaces_lines_wholesale threeItemsDB 0 exampleRaw exampleSchema threeItemsHeader
        (by with_unfolding_all decide) (by with_unfolding_all decide)
        (by with_unfolding_all decide)
    exact ⟨db2, hresp, hcount⟩⟩
